import Mathlib

/-!
Verification development for the camera-calibration pipeline of
`cameraCalibrationWithUndistortion.cpp`.

The pipeline is shallowly embedded: image decoding, chessboard detection,
subpixel refinement, the calibration solver, point projection and the L2
norm are external library primitives; their results are inputs of the
model (fields of `ImageFile`, respectively members of `CVPrims`), while
every control-flow and bookkeeping decision of the repository's own code
(the loop over images, the accumulation of the correspondence set, the
guards, the error computation, the flow of `main`) is translated directly
from the source. Real-valued quantities are modelled over `ℚ`.
-/

namespace CameraCalib

/-- Pixel sizes, mirroring `cv::Size` (two machine ints). -/
structure Size where
  width : Int
  height : Int
deriving DecidableEq

/-- A 2D point with rational coordinates, mirroring `cv::Point2f`. -/
structure Point2 where
  x : ℚ
  y : ℚ
deriving DecidableEq

/-- A 3D point with rational coordinates, mirroring `cv::Point3f`. -/
structure Point3 where
  x : ℚ
  y : ℚ
  z : ℚ
deriving DecidableEq

/-- A 3x1 vector (`cv::Mat` rotation or translation vector), as a list of entries. -/
abbrev Vec3 := List ℚ

/-- A matrix (`cv::Mat`), as row-major lists of entries. -/
abbrev Mat3 := List (List ℚ)

/-- The `CalibrationResults` struct of the source (lines 12-22). -/
structure CalibrationResults where
  cameraMatrix : Mat3
  distCoeffs : List ℚ
  rvecs : List Vec3
  tvecs : List Vec3
  success : Bool
  imageSize : Size
  checkerboardSize : Size
  numImagesUsed : Int
  meanReprojectionError : ℚ
deriving DecidableEq

/-- Output of the external calibration solver `cv::calibrateCamera`:
the intrinsic matrix, the distortion coefficients and one rotation and
translation vector per view. -/
structure SolverOutput where
  cameraMatrix : Mat3
  distCoeffs : List ℚ
  rvecs : List Vec3
  tvecs : List Vec3
deriving DecidableEq

/-- One image file found in the image directory.  `readable` models
whether `cv::imread` succeeds, `size` the pixel dimensions of the decoded
gray image, `detected` the outcome of `cv::findChessboardCorners` (a full
corner list on success, `none` on failure), and `refineStep` one
gradient-analysis adjustment step of `cv::cornerSubPix` for this image,
given the search-window size. -/
structure ImageFile where
  readable : Bool
  size : Size
  detected : Option (List Point2)
  refineStep : Size → Point2 → Point2

/-- The external vision-library primitives used by `calibrateCamera`:
the joint calibration solver (`none` models failure), `cv::projectPoints`,
and `cv::norm(a, b, NORM_L2)`. -/
structure CVPrims where
  calibrate : List (List Point3) → List (List Point2) → Size → Option SolverOutput
  projectPoints : List Point3 → Vec3 → Vec3 → Mat3 → List ℚ → List Point2
  norm2 : List Point2 → List Point2 → ℚ

/-- Squared distance between two 2D points. -/
def distSq (p q : Point2) : ℚ :=
  (p.x - q.x) * (p.x - q.x) + (p.y - q.y) * (p.y - q.y)

/-- Squared L2 norm of the componentwise difference of two point
sequences, the quantity whose square root `cv::norm(a, b, NORM_L2)`
returns. -/
def normL2sq (a b : List Point2) : ℚ :=
  (a.zip b).foldl (fun acc pq => acc + distSq pq.1 pq.2) 0

/-- Search-window size passed to `cv::cornerSubPix` at source line 160. -/
def subPixWinSize : Size := ⟨11, 11⟩

/-- Iteration cap of the `cv::TermCriteria` at source line 159. -/
def subPixMaxIter : Nat := 30

/-- Epsilon of the `cv::TermCriteria` at source line 159. -/
def subPixEps : ℚ := 1 / 1000

/-- Modelled from the spec: the per-corner iteration of `cv::cornerSubPix`
(library code, not in the repository).  Starting from a detected corner it
repeatedly applies the gradient-analysis step, stopping when the positional
change drops below `eps` or when the fuel (the iteration cap) runs out. -/
def refineCorner (step : Point2 → Point2) (eps : ℚ) : Nat → Point2 → Point2
  | 0, p => p
  | n + 1, p =>
    let q := step p
    if distSq p q < eps * eps then q else refineCorner step eps n q

/-- Number of adjustment steps `refineCorner` performs. -/
def refineIters (step : Point2 → Point2) (eps : ℚ) : Nat → Point2 → Nat
  | 0, _ => 0
  | n + 1, p =>
    let q := step p
    if distSq p q < eps * eps then 1 else refineIters step eps n q + 1

/-- Modelled from the spec: `cv::cornerSubPix` refines every corner of the
list independently, preserving order and length. -/
def cornerSubPix (step : Size → Point2 → Point2) (win : Size) (maxIter : Nat)
    (eps : ℚ) (pts : List Point2) : List Point2 :=
  pts.map (refineCorner (step win) eps maxIter)

/-- Object-point template of the checkerboard (source lines 106-111): for
each row index `i` below the inner-corner height and column index `j`
below the inner-corner width, the point `(j, i, 0)`, in row-major order. -/
def mkObjp (cb : Size) : List Point3 :=
  (List.range cb.height.toNat).flatMap fun (i : Nat) =>
    (List.range cb.width.toNat).map fun (j : Nat) => ⟨(j : ℚ), (i : ℚ), 0⟩

/-- State of the detection loop (source lines 130-171): the accumulated
object-point and image-point vectors, the image size captured from the
first readable image, and - as observable bookkeeping for the statements
below - the source-image size of each accumulated observation. -/
structure LoopState where
  objpoints : List (List Point3)
  imgpoints : List (List Point2)
  imageSize : Size
  imageSizeSet : Bool
  obsSizes : List Size

/-- Initial loop state. -/
def initState : LoopState := ⟨[], [], ⟨0, 0⟩, false, []⟩

/-- Capture of the image size from the first readable image
(source lines 149-152). -/
def sizeUpd (st : LoopState) (im : ImageFile) : LoopState :=
  if st.imageSizeSet then st
  else { st with imageSize := im.size, imageSizeSet := true }

/-- Detected corners of an image, the empty list when detection failed. -/
def detectedPts (im : ImageFile) : List Point2 :=
  im.detected.getD []

/-- Refined corner list of an image, as pushed at source line 163:
`cv::cornerSubPix` applied to the detected corners with the 11x11 window
and the (30, 0.001) termination criteria. -/
def refinedPts (im : ImageFile) : List Point2 :=
  cornerSubPix im.refineStep subPixWinSize subPixMaxIter subPixEps (detectedPts im)

/-- Whether an image contributes an observation: it decodes and the
chessboard is fully detected. -/
def goodImage (im : ImageFile) : Bool :=
  im.readable && im.detected.isSome

/-- One iteration of the detection loop (source lines 137-171): skip
unreadable images, capture the image size from the first readable one, and
on a successful detection push the object template and the refined corners. -/
def processImage (objp : List Point3) (st : LoopState) (im : ImageFile) : LoopState :=
  if im.readable then
    let st1 := sizeUpd st im
    match im.detected with
    | none => st1
    | some pts =>
      { st1 with
        objpoints := st1.objpoints ++ [objp]
        imgpoints := st1.imgpoints ++
          [cornerSubPix im.refineStep subPixWinSize subPixMaxIter subPixEps pts]
        obsSizes := st1.obsSizes ++ [im.size] }
  else st

/-- Final state of the detection loop over all images. -/
def runState (cb : Size) (images : List ImageFile) : LoopState :=
  images.foldl (processImage (mkObjp cb)) initState

/-- Reprojected points of observation `i` (source lines 204-206):
`cv::projectPoints` on the i-th object points with the i-th solved pose and
the solved intrinsics. -/
def imagePts2 (prims : CVPrims) (st : LoopState) (out : SolverOutput) (i : Nat) :
    List Point2 :=
  prims.projectPoints (st.objpoints.getD i []) (out.rvecs.getD i [])
    (out.tvecs.getD i []) out.cameraMatrix out.distCoeffs

/-- Per-image reprojection error (source line 207): the L2 norm between
observed and reprojected points divided by the number of reprojected
points. -/
def imageErr (prims : CVPrims) (st : LoopState) (out : SolverOutput) (i : Nat) : ℚ :=
  prims.norm2 (st.imgpoints.getD i []) (imagePts2 prims st out i) /
    ((imagePts2 prims st out i).length : ℚ)

/-- Accumulated reprojection error over all observations
(source lines 202-209). -/
def totalErr (prims : CVPrims) (st : LoopState) (out : SolverOutput) : ℚ :=
  (List.range st.objpoints.length).foldl (fun acc i => acc + imageErr prims st out i) 0

/-- Result record of a run that stopped before a successful solve: the
fields set at source lines 94-98, everything else default-constructed. -/
def failResults (cb : Size) : CalibrationResults :=
  ⟨[], [], [], [], false, ⟨0, 0⟩, cb, 0, 0⟩

/-- Outcome of `calibrateCamera` together with observable bookkeeping:
whether the solver primitive was invoked, and the accumulated
correspondence set. -/
structure CalibOutcome where
  results : CalibrationResults
  solverInvoked : Bool
  objObs : List (List Point3)
  imgObs : List (List Point2)
  obsSizes : List Size

/-- Outcome of a run aborted before or at the solver. -/
def failOutcome (cb : Size) (st : LoopState) (invoked : Bool) : CalibOutcome :=
  ⟨failResults cb, invoked, st.objpoints, st.imgpoints, st.obsSizes⟩

/-- Outcome of a successful solve (source lines 185-213): the solver
output is copied into the result, `numImagesUsed` is the number of
accumulated observations, and the mean reprojection error is the
accumulated error divided by that number. -/
def successOutcome (prims : CVPrims) (cb : Size) (st : LoopState) (out : SolverOutput) :
    CalibOutcome :=
  ⟨⟨out.cameraMatrix, out.distCoeffs, out.rvecs, out.tvecs, true, st.imageSize, cb,
      (st.objpoints.length : Int),
      totalErr prims st out / (st.objpoints.length : ℚ)⟩,
    true, st.objpoints, st.imgpoints, st.obsSizes⟩

/-- Guards and solver call of `calibrateCamera` (source lines 123-213),
over the final loop state: empty image list, empty correspondence set and
missing image size abort the run before the solver; otherwise the solver
is invoked and on success the result record is filled in. -/
def calibGuards (prims : CVPrims) (cb : Size) (images : List ImageFile)
    (st : LoopState) : CalibOutcome :=
  if images.isEmpty then failOutcome cb st false
  else if st.objpoints.isEmpty || st.imgpoints.isEmpty then failOutcome cb st false
  else if !st.imageSizeSet then failOutcome cb st false
  else
    match prims.calibrate st.objpoints st.imgpoints st.imageSize with
    | none => failOutcome cb st true
    | some out => successOutcome prims cb st out

/-- The `calibrateCamera` function of the source (lines 89-214): the
detection loop followed by the guards and the solver call. -/
def calibrateCameraRun (prims : CVPrims) (images : List ImageFile) (cb : Size) :
    CalibOutcome :=
  calibGuards prims cb images (runState cb images)

/-- The solver-output fields stored inside a result record. -/
def resultsSolverOut (r : CalibrationResults) : SolverOutput :=
  ⟨r.cameraMatrix, r.distCoeffs, r.rvecs, r.tvecs⟩

/-- The `saveCalibrationResultsToJSON` function (source lines 24-87),
reduced to its observable effect: given whether the output file can be
opened, it reports whether the artifact was written and whether the
could-not-write error was logged.  The result record is taken by constant
reference and cannot change. -/
def saveCalibrationResultsToJSON (openable : Bool) : Bool × Bool :=
  if openable then (true, false) else (false, true)

/-- Environment of one `main` run: whether the configured image directory
exists, whether creating it would succeed, the images it holds, whether
the output path can be opened for writing, and the configured
checkerboard size. -/
structure Env where
  dirExists : Bool
  dirCreatable : Bool
  images : List ImageFile
  outputOpenable : Bool
  cb : Size

/-- Observable outcome of one `main` run. -/
structure MainOutcome where
  exitCode : Int
  artifactWritten : Bool
  writeErrorLogged : Bool
  dirCreated : Bool
  createdMsgPrinted : Bool
  calibrationAttempted : Bool
  results : Option CalibrationResults

/-- The `main` function (source lines 271-327), after argument parsing: a
missing image directory is created (exit 0, message printed, nothing else
happens; a creation failure exits 1); otherwise the calibration runs, the
artifact is saved only on success, and the exit code is 0 exactly when
calibration succeeded. -/
def mainRun (prims : CVPrims) (env : Env) : MainOutcome :=
  if env.dirExists then
    let out := calibrateCameraRun prims env.images env.cb
    if out.results.success then
      let sv := saveCalibrationResultsToJSON env.outputOpenable
      ⟨0, sv.1, sv.2, false, false, true, some out.results⟩
    else
      ⟨1, false, false, false, false, true, some out.results⟩
  else if env.dirCreatable then
    ⟨0, false, false, true, true, false, none⟩
  else
    ⟨1, false, false, false, false, false, none⟩

/-! ### Characterization of the detection loop -/

theorem sizeUpd_objpoints (st : LoopState) (im : ImageFile) :
    (sizeUpd st im).objpoints = st.objpoints := by
  unfold sizeUpd; split <;> rfl

theorem sizeUpd_imgpoints (st : LoopState) (im : ImageFile) :
    (sizeUpd st im).imgpoints = st.imgpoints := by
  unfold sizeUpd; split <;> rfl

theorem sizeUpd_obsSizes (st : LoopState) (im : ImageFile) :
    (sizeUpd st im).obsSizes = st.obsSizes := by
  unfold sizeUpd; split <;> rfl

theorem sizeUpd_imageSizeSet (st : LoopState) (im : ImageFile) :
    (sizeUpd st im).imageSizeSet = true := by
  unfold sizeUpd; split <;> simp_all

theorem sizeUpd_imageSize (st : LoopState) (im : ImageFile) :
    (sizeUpd st im).imageSize = if st.imageSizeSet then st.imageSize else im.size := by
  unfold sizeUpd; split <;> simp_all

theorem processImage_not_readable (objp : List Point3) (st : LoopState) (im : ImageFile)
    (h : im.readable = false) : processImage objp st im = st := by
  simp [processImage, h]

theorem processImage_objpoints (objp : List Point3) (st : LoopState) (im : ImageFile) :
    (processImage objp st im).objpoints =
      st.objpoints ++ (if goodImage im then [objp] else []) := by
  unfold processImage goodImage
  cases hr : im.readable <;> cases hd : im.detected <;>
    simp [sizeUpd_objpoints, hd]

theorem processImage_imgpoints (objp : List Point3) (st : LoopState) (im : ImageFile) :
    (processImage objp st im).imgpoints =
      st.imgpoints ++ (if goodImage im then [refinedPts im] else []) := by
  unfold processImage goodImage refinedPts detectedPts
  cases hr : im.readable <;> cases hd : im.detected <;>
    simp [sizeUpd_imgpoints, hd]

theorem processImage_obsSizes (objp : List Point3) (st : LoopState) (im : ImageFile) :
    (processImage objp st im).obsSizes =
      st.obsSizes ++ (if goodImage im then [im.size] else []) := by
  unfold processImage goodImage
  cases hr : im.readable <;> cases hd : im.detected <;>
    simp [sizeUpd_obsSizes, hd]

theorem processImage_imageSizeSet (objp : List Point3) (st : LoopState) (im : ImageFile) :
    (processImage objp st im).imageSizeSet = (st.imageSizeSet || im.readable) := by
  unfold processImage
  cases hr : im.readable <;> cases hd : im.detected <;>
    simp [sizeUpd_imageSizeSet, hd]

theorem processImage_imageSize (objp : List Point3) (st : LoopState) (im : ImageFile) :
    (processImage objp st im).imageSize =
      if st.imageSizeSet || !im.readable then st.imageSize else im.size := by
  unfold processImage
  cases hr : im.readable <;> cases hd : im.detected <;> cases hs : st.imageSizeSet <;>
    simp [sizeUpd_imageSize, hd, hs]

theorem foldl_objpoints (objp : List Point3) (images : List ImageFile) (st : LoopState) :
    (images.foldl (processImage objp) st).objpoints =
      st.objpoints ++ (images.filter goodImage).map (fun _ => objp) := by
  induction images generalizing st with
  | nil => simp
  | cons im rest ih =>
    rw [List.foldl_cons, ih, processImage_objpoints, List.filter_cons]
    cases hg : goodImage im <;> simp [hg]

theorem foldl_imgpoints (objp : List Point3) (images : List ImageFile) (st : LoopState) :
    (images.foldl (processImage objp) st).imgpoints =
      st.imgpoints ++ (images.filter goodImage).map refinedPts := by
  induction images generalizing st with
  | nil => simp
  | cons im rest ih =>
    rw [List.foldl_cons, ih, processImage_imgpoints, List.filter_cons]
    cases hg : goodImage im <;> simp [hg]

theorem foldl_obsSizes (objp : List Point3) (images : List ImageFile) (st : LoopState) :
    (images.foldl (processImage objp) st).obsSizes =
      st.obsSizes ++ (images.filter goodImage).map (fun im => im.size) := by
  induction images generalizing st with
  | nil => simp
  | cons im rest ih =>
    rw [List.foldl_cons, ih, processImage_obsSizes, List.filter_cons]
    cases hg : goodImage im <;> simp [hg]

theorem foldl_imageSizeSet (objp : List Point3) (images : List ImageFile) (st : LoopState) :
    (images.foldl (processImage objp) st).imageSizeSet =
      (st.imageSizeSet || images.any (fun im => im.readable)) := by
  induction images generalizing st with
  | nil => simp
  | cons im rest ih =>
    rw [List.foldl_cons, ih, processImage_imageSizeSet, List.any_cons]
    cases hr : im.readable <;> simp [hr, Bool.or_assoc]

theorem foldl_imageSize (objp : List Point3) (images : List ImageFile) (st : LoopState) :
    (images.foldl (processImage objp) st).imageSize =
      if st.imageSizeSet then st.imageSize
      else ((images.find? (fun im => im.readable)).map (fun im => im.size)).getD
        st.imageSize := by
  induction images generalizing st with
  | nil => simp
  | cons im rest ih =>
    rw [List.foldl_cons, ih]
    cases hr : im.readable
    · rw [processImage_not_readable objp st im hr, List.find?_cons_of_neg]
      simp [hr]
    · rw [processImage_imageSizeSet, processImage_imageSize, List.find?_cons_of_pos _ (by simp [hr])]
      cases hs : st.imageSizeSet <;> simp [hr, hs]

theorem runState_objpoints (cb : Size) (images : List ImageFile) :
    (runState cb images).objpoints =
      (images.filter goodImage).map (fun _ => mkObjp cb) := by
  rw [runState, foldl_objpoints]; rfl

theorem runState_imgpoints (cb : Size) (images : List ImageFile) :
    (runState cb images).imgpoints = (images.filter goodImage).map refinedPts := by
  rw [runState, foldl_imgpoints]; rfl

theorem runState_obsSizes (cb : Size) (images : List ImageFile) :
    (runState cb images).obsSizes =
      (images.filter goodImage).map (fun im => im.size) := by
  rw [runState, foldl_obsSizes]; rfl

theorem runState_imageSizeSet (cb : Size) (images : List ImageFile) :
    (runState cb images).imageSizeSet = images.any (fun im => im.readable) := by
  rw [runState, foldl_imageSizeSet]; rfl

theorem runState_imageSize (cb : Size) (images : List ImageFile) :
    (runState cb images).imageSize =
      ((images.find? (fun im => im.readable)).map (fun im => im.size)).getD ⟨0, 0⟩ := by
  rw [runState, foldl_imageSize]; rfl

/-! ### Inversion of a successful run -/

theorem calib_success_inversion (prims : CVPrims) (images : List ImageFile) (cb : Size)
    (h : (calibrateCameraRun prims images cb).results.success = true) :
    images.isEmpty = false ∧
    (runState cb images).objpoints.isEmpty = false ∧
    (runState cb images).imgpoints.isEmpty = false ∧
    (runState cb images).imageSizeSet = true ∧
    ∃ out, prims.calibrate (runState cb images).objpoints (runState cb images).imgpoints
        (runState cb images).imageSize = some out ∧
      calibrateCameraRun prims images cb =
        successOutcome prims cb (runState cb images) out := by
  unfold calibrateCameraRun calibGuards at h ⊢
  split at h
  · simp [failOutcome, failResults] at h
  · split at h
    · simp [failOutcome, failResults] at h
    · split at h
      · simp [failOutcome, failResults] at h
      · split at h
        · simp [failOutcome, failResults] at h
        · simp_all


/-! ### Concrete instances used to exercise the pipeline -/

/-- Gradient step that leaves every corner in place. -/
def stepId : Size → Point2 → Point2 := fun _ p => p

/-- Concrete checkerboard size with a single inner corner. -/
def cb0 : Size := ⟨1, 1⟩

/-- Concrete readable 4x4 image on which detection finds the single corner. -/
def im0 : ImageFile := ⟨true, ⟨4, 4⟩, some [⟨0, 0⟩], stepId⟩

/-- Concrete solver returning one zero pose per view. -/
def solver0 : List (List Point3) → List (List Point2) → Size → Option SolverOutput :=
  fun op _ _ =>
    some ⟨[[1, 0, 0], [0, 1, 0], [0, 0, 1]], [0, 0, 0, 0, 0],
      op.map (fun _ => [0, 0, 0]), op.map (fun _ => [0, 0, 0])⟩

/-- Concrete projection dropping the z coordinate. -/
def proj0 : List Point3 → Vec3 → Vec3 → Mat3 → List ℚ → List Point2 :=
  fun ops _ _ _ _ => ops.map (fun p => ⟨p.x, p.y⟩)

/-- Concrete primitives with an always-zero norm (exact on runs whose
reprojections coincide with the observations). -/
def prims0 : CVPrims := ⟨solver0, proj0, fun _ _ => 0⟩

/-! ### C1: pose and observation counts -/

/-- C1: for every run in which calibration succeeds, the number of
rotation vectors, the number of translation vectors, the number of
accumulated observations, and the reported `numImagesUsed` field of the
result are all equal (the solver contract - one pose per view, as
`cv::calibrateCamera` guarantees - is the hypothesis `hsolver`). -/
theorem calib_pose_observation_counts (prims : CVPrims) (images : List ImageFile)
    (cb : Size)
    (hsolver : ∀ op ip s o, prims.calibrate op ip s = some o →
      o.rvecs.length = op.length ∧ o.tvecs.length = op.length)
    (hsucc : (calibrateCameraRun prims images cb).results.success = true) :
    (calibrateCameraRun prims images cb).results.rvecs.length =
        (calibrateCameraRun prims images cb).objObs.length ∧
    (calibrateCameraRun prims images cb).results.tvecs.length =
        (calibrateCameraRun prims images cb).objObs.length ∧
    (calibrateCameraRun prims images cb).imgObs.length =
        (calibrateCameraRun prims images cb).objObs.length ∧
    (calibrateCameraRun prims images cb).results.numImagesUsed =
        ((calibrateCameraRun prims images cb).objObs.length : Int) := by
  obtain ⟨-, -, -, -, out, hcal, heq⟩ := calib_success_inversion prims images cb hsucc
  obtain ⟨hr, ht⟩ := hsolver _ _ _ _ hcal
  rw [heq]
  refine ⟨hr, ht, ?_, rfl⟩
  show (runState cb images).imgpoints.length = (runState cb images).objpoints.length
  rw [runState_imgpoints, runState_objpoints]
  simp

/-- Witness: a concrete successful one-image run on which the counts of
C1 all evaluate to 1. -/
theorem calib_pose_observation_counts_witness :
    (calibrateCameraRun prims0 [im0] cb0).results.success = true ∧
    (calibrateCameraRun prims0 [im0] cb0).results.rvecs.length =
      (calibrateCameraRun prims0 [im0] cb0).objObs.length ∧
    (calibrateCameraRun prims0 [im0] cb0).objObs.length = 1 :=
  ⟨by decide,
    (calib_pose_observation_counts prims0 [im0] cb0
      (fun op ip s o h => by
        simp only [prims0, solver0] at h
        cases h
        simp)
      (by decide)).1,
    by decide⟩

/-! ### C2: reprojection error -/

theorem foldl_add_eq_sum (l : List Nat) (f : Nat → ℚ) (a : ℚ) :
    l.foldl (fun acc i => acc + f i) a = a + (l.map f).sum := by
  induction l generalizing a with
  | nil => simp
  | cons x xs ih => simp [ih, add_assoc]

theorem totalErr_eq_sum (prims : CVPrims) (st : LoopState) (out : SolverOutput) :
    totalErr prims st out =
      ((List.range st.objpoints.length).map (imageErr prims st out)).sum := by
  rw [totalErr, foldl_add_eq_sum, zero_add]

/-- Number of accumulated observations of a run. -/
def runN (cb : Size) (images : List ImageFile) : Nat :=
  (runState cb images).objpoints.length

/-- Observed corner list of observation `i` of a run. -/
def runObs (cb : Size) (images : List ImageFile) (i : Nat) : List Point2 :=
  (runState cb images).imgpoints.getD i []

/-- Reprojected corner list of observation `i`, through the solved model
stored in the run's result. -/
def runProj (prims : CVPrims) (images : List ImageFile) (cb : Size) (i : Nat) :
    List Point2 :=
  imagePts2 prims (runState cb images)
    (resultsSolverOut (calibrateCameraRun prims images cb).results) i

/-- Per-image reprojection error of observation `i`, through the solved
model stored in the run's result. -/
def runErr (prims : CVPrims) (images : List ImageFile) (cb : Size) (i : Nat) : ℚ :=
  imageErr prims (runState cb images)
    (resultsSolverOut (calibrateCameraRun prims images cb).results) i

theorem normL2sq_nil_right (a : List Point2) : normL2sq a [] = 0 := by
  simp [normL2sq]

/-- C2: for every successful calibration with at least one observation,
the per-image reprojection error of observation `i` is the L2 norm of the
difference between observed and reprojected points divided by the number
of points (its product with the point count squares to the summed squared
componentwise differences, and it is nonnegative), and the reported mean
reprojection error is the arithmetic mean of the per-image errors and is
nonnegative.  The hypothesis `hnorm` is the `cv::norm` contract - a
nonnegative value whose square is the summed squared differences - at the
point pairs the run evaluates. -/
theorem calib_mean_reprojection_error (prims : CVPrims) (images : List ImageFile)
    (cb : Size)
    (hsucc : (calibrateCameraRun prims images cb).results.success = true)
    (hnorm : ∀ i, i < runN cb images →
      0 ≤ prims.norm2 (runObs cb images i) (runProj prims images cb i) ∧
      prims.norm2 (runObs cb images i) (runProj prims images cb i) *
          prims.norm2 (runObs cb images i) (runProj prims images cb i) =
        normL2sq (runObs cb images i) (runProj prims images cb i)) :
    1 ≤ runN cb images ∧
    (calibrateCameraRun prims images cb).results.numImagesUsed =
      (runN cb images : Int) ∧
    (∀ i, i < runN cb images →
      runErr prims images cb i =
        prims.norm2 (runObs cb images i) (runProj prims images cb i) /
          ((runProj prims images cb i).length : ℚ)) ∧
    (∀ i, i < runN cb images →
      runErr prims images cb i * ((runProj prims images cb i).length : ℚ) *
          (runErr prims images cb i * ((runProj prims images cb i).length : ℚ)) =
        normL2sq (runObs cb images i) (runProj prims images cb i)) ∧
    (∀ i, i < runN cb images → 0 ≤ runErr prims images cb i) ∧
    (calibrateCameraRun prims images cb).results.meanReprojectionError =
      ((List.range (runN cb images)).map (runErr prims images cb)).sum /
        (runN cb images : ℚ) ∧
    0 ≤ (calibrateCameraRun prims images cb).results.meanReprojectionError := by
  obtain ⟨-, hobj, -, -, out, hcal, heq⟩ := calib_success_inversion prims images cb hsucc
  have hN : 1 ≤ runN cb images := by
    have hne : (runState cb images).objpoints ≠ [] := by simpa using hobj
    have := List.length_pos.mpr hne
    exact this
  have herr : ∀ i, runErr prims images cb i =
      prims.norm2 (runObs cb images i) (runProj prims images cb i) /
        ((runProj prims images cb i).length : ℚ) := by
    intro i
    rfl
  have hnonneg : ∀ i, i < runN cb images → 0 ≤ runErr prims images cb i := by
    intro i hi
    rw [herr]
    exact div_nonneg (hnorm i hi).1 (by positivity)
  have hmap : List.map (runErr prims images cb) (List.range (runN cb images)) =
      List.map (imageErr prims (runState cb images) out)
        (List.range (runN cb images)) := by
    apply List.map_congr_left
    intro i _
    unfold runErr
    rw [heq]
    rfl
  have hmean : (calibrateCameraRun prims images cb).results.meanReprojectionError =
      ((List.range (runN cb images)).map (runErr prims images cb)).sum /
        (runN cb images : ℚ) := by
    rw [hmap, heq]
    show totalErr prims (runState cb images) out / _ = _
    rw [totalErr_eq_sum]
    rfl
  refine ⟨hN, ?_, fun i _ => herr i, ?_, hnonneg, hmean, ?_⟩
  · rw [heq]; rfl
  · intro i hi
    by_cases hz : ((runProj prims images cb i).length : ℚ) = 0
    · have hp : runProj prims images cb i = [] := by
        have := hz
        simp only [Nat.cast_eq_zero, List.length_eq_zero] at this
        exact this
      rw [herr, hz, hp, normL2sq_nil_right]
      ring
    · rw [herr, div_mul_cancel₀ _ hz]
      exact (hnorm i hi).2
  · rw [hmean]
    apply div_nonneg
    · apply List.sum_nonneg
      intro x hx
      obtain ⟨i, hi, rfl⟩ := List.mem_map.mp hx
      exact hnonneg i (List.mem_range.mp hi)
    · positivity

theorem distSq_self (p : Point2) : distSq p p = 0 := by
  simp [distSq]

theorem refineCorner_stepId (win : Size) (eps : ℚ) (n : Nat) (p : Point2) :
    refineCorner (stepId win) eps n p = p := by
  induction n with
  | zero => rfl
  | succ k ih =>
    show (if distSq p p < eps * eps then p else refineCorner (stepId win) eps k p) = p
    rw [distSq_self]
    split
    · rfl
    · exact ih

theorem runObs_im0 : runObs cb0 [im0] 0 = [⟨0, 0⟩] := by
  unfold runObs
  rw [runState_imgpoints]
  simp [goodImage, im0, refinedPts, cornerSubPix, detectedPts, refineCorner_stepId]

theorem mkObjp_cb0 : mkObjp cb0 = [⟨0, 0, 0⟩] := rfl

theorem runProj_im0 : runProj prims0 [im0] cb0 0 = [⟨0, 0⟩] := by
  unfold runProj imagePts2
  rw [runState_objpoints]
  simp [goodImage, im0, prims0, proj0, mkObjp_cb0]

theorem norm_contract_im0 : ∀ i, i < runN cb0 [im0] →
    0 ≤ prims0.norm2 (runObs cb0 [im0] i) (runProj prims0 [im0] cb0 i) ∧
    prims0.norm2 (runObs cb0 [im0] i) (runProj prims0 [im0] cb0 i) *
        prims0.norm2 (runObs cb0 [im0] i) (runProj prims0 [im0] cb0 i) =
      normL2sq (runObs cb0 [im0] i) (runProj prims0 [im0] cb0 i) := by
  intro i hi
  have h0 : i = 0 := Nat.lt_one_iff.mp hi
  subst h0
  rw [runObs_im0, runProj_im0]
  refine ⟨le_refl 0, ?_⟩
  show (0 : ℚ) * 0 = normL2sq [⟨0, 0⟩] [⟨0, 0⟩]
  norm_num [normL2sq, distSq]

/-- Witness: on a concrete one-image run where the reprojections coincide
with the observations, the mean error is the (zero-valued) average of the
per-image errors and C2 applies. -/
theorem calib_mean_reprojection_error_witness :
    (calibrateCameraRun prims0 [im0] cb0).results.success = true ∧
    (calibrateCameraRun prims0 [im0] cb0).results.meanReprojectionError =
      ((List.range (runN cb0 [im0])).map (runErr prims0 [im0] cb0)).sum /
        (runN cb0 [im0] : ℚ) ∧
    0 ≤ (calibrateCameraRun prims0 [im0] cb0).results.meanReprojectionError :=
  ⟨by decide,
    (calib_mean_reprojection_error prims0 [im0] cb0 (by decide)
      norm_contract_im0).2.2.2.2.2.1,
    (calib_mean_reprojection_error prims0 [im0] cb0 (by decide)
      norm_contract_im0).2.2.2.2.2.2⟩

/-! ### C3: object-point template -/

theorem calib_objObs (prims : CVPrims) (images : List ImageFile) (cb : Size) :
    (calibrateCameraRun prims images cb).objObs = (runState cb images).objpoints := by
  unfold calibrateCameraRun calibGuards
  split
  · rfl
  · split
    · rfl
    · split
      · rfl
      · split <;> rfl

theorem calib_imgObs (prims : CVPrims) (images : List ImageFile) (cb : Size) :
    (calibrateCameraRun prims images cb).imgObs = (runState cb images).imgpoints := by
  unfold calibrateCameraRun calibGuards
  split
  · rfl
  · split
    · rfl
    · split
      · rfl
      · split <;> rfl

theorem calib_obsSizes (prims : CVPrims) (images : List ImageFile) (cb : Size) :
    (calibrateCameraRun prims images cb).obsSizes = (runState cb images).obsSizes := by
  unfold calibrateCameraRun calibGuards
  split
  · rfl
  · split
    · rfl
    · split
      · rfl
      · split <;> rfl

theorem range_flatMap_succ (g : Nat → List Point3) (h : Nat) :
    (List.range (h + 1)).flatMap g = g 0 ++ (List.range h).flatMap (fun r => g (r + 1)) := by
  rw [List.range_succ_eq_map, List.flatMap_cons, List.flatMap_map]

theorem flatMap_rows_get (w : Nat) :
    ∀ (h : Nat) (g : Nat → Nat → Point3) (i j : Nat), i < h → j < w →
    ((List.range h).flatMap fun r => (List.range w).map (g r))[i * w + j]? =
      some (g i j) := by
  intro h
  induction h with
  | zero => intro g i j hi hj; exact absurd hi (Nat.not_lt_zero i)
  | succ h ih =>
    intro g i j hi hj
    rw [range_flatMap_succ]
    cases i with
    | zero =>
      rw [Nat.zero_mul, Nat.zero_add,
        List.getElem?_append_left (by simpa using hj),
        List.getElem?_map, List.getElem?_range hj]
      rfl
    | succ i =>
      have hlen : (List.map (g 0) (List.range w)).length ≤ (i + 1) * w + j := by
        rw [List.length_map, List.length_range, Nat.succ_mul]
        exact le_trans (Nat.le_add_left w (i * w)) (Nat.le_add_right _ j)
      rw [List.getElem?_append_right hlen]
      have hidx : (i + 1) * w + j - (List.map (g 0) (List.range w)).length = i * w + j := by
        rw [List.length_map, List.length_range, Nat.succ_mul,
          Nat.add_right_comm (i * w) w j, Nat.add_sub_cancel]
      rw [hidx]
      exact ih (fun r => g (r + 1)) i j (Nat.lt_of_succ_lt_succ hi) hj

theorem flatMap_rows_length (w : Nat) :
    ∀ (h : Nat) (g : Nat → Nat → Point3),
    ((List.range h).flatMap fun r => (List.range w).map (g r)).length = h * w := by
  intro h
  induction h with
  | zero => intro g; simp
  | succ h ih =>
    intro g
    rw [range_flatMap_succ, List.length_append, List.length_map, List.length_range, ih,
      Nat.succ_mul]
    exact Nat.add_comm w (h * w)

/-- C3: the object-point template for grid dimensions `(width, height)`
has exactly `width * height` points, its entry at row-major index
`i * width + j` is `(j, i, 0)` (unit spacing, z = 0 for every point), and
the identical immutable template is the object-point list of every
accumulated observation. -/
theorem objp_template_spec (prims : CVPrims) (images : List ImageFile) (cb : Size)
    (i j : Nat) (hi : i < cb.height.toNat) (hj : j < cb.width.toNat) :
    (mkObjp cb).length = cb.height.toNat * cb.width.toNat ∧
    (0 ≤ cb.width → 0 ≤ cb.height →
      ((mkObjp cb).length : Int) = cb.width * cb.height) ∧
    (mkObjp cb)[i * cb.width.toNat + j]? = some ⟨(j : ℚ), (i : ℚ), 0⟩ ∧
    (∀ p ∈ mkObjp cb, p.z = 0) ∧
    (∀ o ∈ (calibrateCameraRun prims images cb).objObs, o = mkObjp cb) := by
  have hlen : (mkObjp cb).length = cb.height.toNat * cb.width.toNat := by
    unfold mkObjp
    exact flatMap_rows_length cb.width.toNat cb.height.toNat
      (fun r c => ⟨(c : ℚ), (r : ℚ), 0⟩)
  refine ⟨hlen, ?_, ?_, ?_, ?_⟩
  · intro hw hh
    rw [hlen]
    push_cast [Int.toNat_of_nonneg hw, Int.toNat_of_nonneg hh]
    ring
  · unfold mkObjp
    exact flatMap_rows_get cb.width.toNat cb.height.toNat
      (fun r c => ⟨(c : ℚ), (r : ℚ), 0⟩) i j hi hj
  · intro p hp
    simp only [mkObjp, List.mem_flatMap, List.mem_map] at hp
    obtain ⟨r, -, c, -, rfl⟩ := hp
    rfl
  · intro o ho
    rw [calib_objObs, runState_objpoints] at ho
    obtain ⟨im, -, rfl⟩ := List.mem_map.mp ho
    rfl

/-- Witness: the template facts of C3 at the concrete one-corner grid. -/
theorem objp_template_spec_witness :
    (mkObjp cb0).length = 1 ∧ (mkObjp cb0)[0]? = some ⟨0, 0, 0⟩ :=
  ⟨by decide,
    by
      have h := (objp_template_spec prims0 [im0] cb0 0 0 (by decide) (by decide)).2.2.1
      simpa using h⟩

/-! ### C4: shared image dimensions -/

/-- Second concrete image, readable and detected, with different pixel
dimensions from `im0`. -/
def im1 : ImageFile := ⟨true, ⟨8, 8⟩, some [⟨1, 1⟩], stepId⟩

/-- C4 counterexample: a successful run accumulating two observations
whose source images have different pixel dimensions; the observations do
not all share the result's image size, so the claimed invariant fails on
the code (no dimension check is performed on images after the first). -/
theorem obs_sizes_counterexample :
    (calibrateCameraRun prims0 [im0, im1] cb0).results.success = true ∧
    ¬ (∀ s ∈ (calibrateCameraRun prims0 [im0, im1] cb0).obsSizes,
        s = (calibrateCameraRun prims0 [im0, im1] cb0).results.imageSize) := by
  decide

/-- C4 (amended): when all readable images of a run share the same pixel
dimensions, every accumulated observation has those dimensions and a
successful run reports them as the result's image size. -/
theorem obs_sizes_shared (prims : CVPrims) (images : List ImageFile) (cb : Size)
    (sz : Size) (hsz : ∀ im ∈ images, im.readable = true → im.size = sz) :
    (∀ s ∈ (calibrateCameraRun prims images cb).obsSizes, s = sz) ∧
    ((calibrateCameraRun prims images cb).results.success = true →
      (calibrateCameraRun prims images cb).results.imageSize = sz) := by
  constructor
  · intro s hs
    rw [calib_obsSizes, runState_obsSizes] at hs
    obtain ⟨im, him, rfl⟩ := List.mem_map.mp hs
    obtain ⟨hmem, hgood⟩ := List.mem_filter.mp him
    have hr : im.readable = true := by
      have hg := hgood
      simp only [goodImage, Bool.and_eq_true] at hg
      exact hg.1
    exact hsz im hmem hr
  · intro hsucc
    obtain ⟨-, -, -, hset, out, hcal, heq⟩ := calib_success_inversion prims images cb hsucc
    rw [heq]
    show (runState cb images).imageSize = sz
    rw [runState_imageSize]
    rw [runState_imageSizeSet] at hset
    obtain ⟨im, hfind⟩ : ∃ im, images.find? (fun im => im.readable) = some im := by
      cases hf : images.find? (fun im => im.readable) with
      | some im => exact ⟨im, rfl⟩
      | none =>
        rw [List.find?_eq_none] at hf
        obtain ⟨x, hx, hxr⟩ := List.any_eq_true.mp hset
        exact absurd hxr (by simpa using hf x hx)
    rw [hfind]
    have hr : im.readable = true := by simpa using List.find?_some hfind
    have hm : im ∈ images := List.mem_of_find?_eq_some hfind
    simpa using hsz im hm hr

/-- Witness: the amended C4 at a concrete one-image run of dimensions
4x4. -/
theorem obs_sizes_shared_witness :
    (∀ s ∈ (calibrateCameraRun prims0 [im0] cb0).obsSizes, s = (⟨4, 4⟩ : Size)) ∧
    ((calibrateCameraRun prims0 [im0] cb0).results.success = true →
      (calibrateCameraRun prims0 [im0] cb0).results.imageSize = ⟨4, 4⟩) :=
  obs_sizes_shared prims0 [im0] cb0 ⟨4, 4⟩ (fun im him hr => by
    simp only [List.mem_singleton] at him
    subst him
    rfl)

/-! ### C7: no solver call on an empty correspondence set -/

/-- C7: if the detection loop accumulated no observations, the solver
primitive is never invoked and the run has already failed beforehand. -/
theorem solver_not_invoked_on_empty (prims : CVPrims) (images : List ImageFile)
    (cb : Size) (hempty : (runState cb images).objpoints = []) :
    (calibrateCameraRun prims images cb).solverInvoked = false ∧
    (calibrateCameraRun prims images cb).results.success = false := by
  unfold calibrateCameraRun calibGuards
  split
  · exact ⟨rfl, rfl⟩
  · split
    · exact ⟨rfl, rfl⟩
    · rename_i h2
      exact absurd (by simp [hempty]) h2

/-- Concrete readable image in which no checkerboard is detected. -/
def imNoDet : ImageFile := ⟨true, ⟨4, 4⟩, none, stepId⟩

/-- Witness: a concrete run with one undetected image accumulates no
observations and never invokes the solver. -/
theorem solver_not_invoked_on_empty_witness :
    (runState cb0 [imNoDet]).objpoints = [] ∧
    (calibrateCameraRun prims0 [imNoDet] cb0).solverInvoked = false :=
  ⟨by decide, (solver_not_invoked_on_empty prims0 [imNoDet] cb0 (by decide)).1⟩

/-! ### C10: observations only on full detection -/

/-- C10: under the detector contract (a successful detection returns
exactly `width*height` corners, never a partial list), an observation is
accumulated exactly for each readable image whose detection fully
succeeds, every accumulated image-point list has exactly `width*height`
entries, and an image with no detected checkerboard contributes nothing
while the remaining images still contribute as if it were absent. -/
theorem observation_only_on_success (prims : CVPrims) (images : List ImageFile)
    (cb : Size)
    (hdet : ∀ im ∈ images, ∀ pts, im.detected = some pts →
      pts.length = cb.width.toNat * cb.height.toNat) :
    (∀ ip ∈ (calibrateCameraRun prims images cb).imgObs,
      ip.length = cb.width.toNat * cb.height.toNat) ∧
    (calibrateCameraRun prims images cb).imgObs.length =
      (images.filter goodImage).length ∧
    (∀ (pre post : List ImageFile) (bad : ImageFile), bad.detected = none →
      (calibrateCameraRun prims (pre ++ bad :: post) cb).imgObs =
        (calibrateCameraRun prims (pre ++ post) cb).imgObs ∧
      (calibrateCameraRun prims (pre ++ bad :: post) cb).objObs =
        (calibrateCameraRun prims (pre ++ post) cb).objObs) := by
  refine ⟨?_, ?_, ?_⟩
  · intro ip hip
    rw [calib_imgObs, runState_imgpoints] at hip
    obtain ⟨im, him, rfl⟩ := List.mem_map.mp hip
    obtain ⟨hmem, hgood⟩ := List.mem_filter.mp him
    have hsome : im.detected.isSome = true := by
      simp only [goodImage, Bool.and_eq_true] at hgood
      exact hgood.2
    obtain ⟨pts, hpts⟩ := Option.isSome_iff_exists.mp hsome
    show (refinedPts im).length = cb.width.toNat * cb.height.toNat
    rw [refinedPts, cornerSubPix, List.length_map]
    rw [detectedPts, hpts]
    exact hdet im hmem pts hpts
  · rw [calib_imgObs, runState_imgpoints, List.length_map]
  · intro pre post bad hbad
    have hfilter : (pre ++ bad :: post).filter goodImage =
        (pre ++ post).filter goodImage := by
      rw [List.filter_append, List.filter_append, List.filter_cons]
      have : goodImage bad = false := by
        simp [goodImage, hbad]
      rw [this]
      simp
    constructor
    · rw [calib_imgObs, runState_imgpoints, calib_imgObs, runState_imgpoints, hfilter]
    · rw [calib_objObs, runState_objpoints, calib_objObs, runState_objpoints, hfilter]

/-- Witness: a concrete run with one good image and one undetected image
accumulates exactly one observation of the full corner count, and
dropping the undetected image leaves the observations unchanged. -/
theorem observation_only_on_success_witness :
    (calibrateCameraRun prims0 [im0, imNoDet] cb0).imgObs.length =
      ([im0, imNoDet].filter goodImage).length ∧
    (calibrateCameraRun prims0 [im0, imNoDet] cb0).imgObs =
      (calibrateCameraRun prims0 [im0] cb0).imgObs :=
  ⟨(observation_only_on_success prims0 [im0, imNoDet] cb0
      (fun im him pts hp => by
        simp only [List.mem_cons, List.not_mem_nil, or_false] at him
        rcases him with rfl | rfl
        · have h0 : pts = [⟨0, 0⟩] := by
            have hp0 : some [(⟨0, 0⟩ : Point2)] = some pts := hp
            exact (Option.some.inj hp0).symm
          subst h0
          rfl
        · exact absurd hp (by simp [imNoDet]))).2.1,
    ((observation_only_on_success prims0 [im0, imNoDet] cb0
      (fun im him pts hp => by
        simp only [List.mem_cons, List.not_mem_nil, or_false] at him
        rcases him with rfl | rfl
        · have h0 : pts = [⟨0, 0⟩] := by
            have hp0 : some [(⟨0, 0⟩ : Point2)] = some pts := hp
            exact (Option.some.inj hp0).symm
          subst h0
          rfl
        · exact absurd hp (by simp [imNoDet]))).2.2 [im0] [] imNoDet rfl).1⟩

/-! ### C8: subpixel refiner -/

theorem refineIters_le (step : Point2 → Point2) (eps : ℚ) :
    ∀ (n : Nat) (p : Point2), refineIters step eps n p ≤ n := by
  intro n
  induction n with
  | zero => intro p; exact Nat.le_refl 0
  | succ k ih =>
    intro p
    show (if distSq p (step p) < eps * eps then 1
      else refineIters step eps k (step p) + 1) ≤ k + 1
    split
    · exact Nat.succ_le_succ (Nat.zero_le k)
    · exact Nat.succ_le_succ (ih _)

/-- C8: the pipeline refines every detected corner list with the 11x11
search window and the (30 iterations, 0.001 pixel) termination criteria;
the refiner treats corners independently, returning a same-length list in
the same order; each corner performs at most the capped number of
adjustment steps, stopping early exactly when the positional change drops
below the epsilon. -/
theorem subpix_refiner_spec (im : ImageFile) (pts : List Point2) (n : Nat)
    (p : Point2) :
    subPixWinSize = ⟨11, 11⟩ ∧ subPixMaxIter = 30 ∧ subPixEps = 1 / 1000 ∧
    refinedPts im = (detectedPts im).map
      (refineCorner (im.refineStep subPixWinSize) subPixEps subPixMaxIter) ∧
    (cornerSubPix im.refineStep subPixWinSize subPixMaxIter subPixEps pts).length =
      pts.length ∧
    (∀ (k : Nat),
      (cornerSubPix im.refineStep subPixWinSize subPixMaxIter subPixEps pts)[k]? =
      pts[k]?.map (refineCorner (im.refineStep subPixWinSize) subPixEps subPixMaxIter)) ∧
    refineCorner (im.refineStep subPixWinSize) subPixEps 0 p = p ∧
    (distSq p (im.refineStep subPixWinSize p) < subPixEps * subPixEps →
      refineCorner (im.refineStep subPixWinSize) subPixEps (n + 1) p =
        im.refineStep subPixWinSize p) ∧
    (¬ distSq p (im.refineStep subPixWinSize p) < subPixEps * subPixEps →
      refineCorner (im.refineStep subPixWinSize) subPixEps (n + 1) p =
        refineCorner (im.refineStep subPixWinSize) subPixEps n
          (im.refineStep subPixWinSize p)) ∧
    refineIters (im.refineStep subPixWinSize) subPixEps subPixMaxIter p ≤
      subPixMaxIter := by
  refine ⟨rfl, rfl, rfl, rfl, ?_, ?_, rfl, ?_, ?_, ?_⟩
  · exact List.length_map pts _
  · intro k
    rw [cornerSubPix, List.getElem?_map]
  · intro h
    show (if distSq p (im.refineStep subPixWinSize p) < subPixEps * subPixEps then
      im.refineStep subPixWinSize p
      else refineCorner (im.refineStep subPixWinSize) subPixEps n
        (im.refineStep subPixWinSize p)) = im.refineStep subPixWinSize p
    rw [if_pos h]
  · intro h
    show (if distSq p (im.refineStep subPixWinSize p) < subPixEps * subPixEps then
      im.refineStep subPixWinSize p
      else refineCorner (im.refineStep subPixWinSize) subPixEps n
        (im.refineStep subPixWinSize p)) = _
    rw [if_neg h]
  · exact refineIters_le _ _ _ _

/-- Witness: the refiner parameters and the length preservation at a
concrete one-corner list. -/
theorem subpix_refiner_spec_witness :
    subPixWinSize = ⟨11, 11⟩ ∧
    (cornerSubPix im0.refineStep subPixWinSize subPixMaxIter subPixEps
      [⟨0, 0⟩]).length = 1 :=
  ⟨(subpix_refiner_spec im0 [⟨0, 0⟩] 0 ⟨0, 0⟩).1,
    (subpix_refiner_spec im0 [⟨0, 0⟩] 0 ⟨0, 0⟩).2.2.2.2.1⟩

/-! ### C5, C6, C9: process exit semantics -/

/-- Environment of a successful run whose output file cannot be opened. -/
def envNoWrite : Env := ⟨true, true, [im0], false, cb0⟩

/-- Environment of a successful, fully writable run. -/
def envOk : Env := ⟨true, true, [im0], true, cb0⟩

/-- Environment of a failing run (the only image has no detection). -/
def envFail : Env := ⟨true, true, [imNoDet], true, cb0⟩

/-- Environment whose image directory is missing and cannot be created. -/
def envNoDir : Env := ⟨false, false, [], true, cb0⟩

/-- Environment whose image directory is missing and can be created. -/
def envMkDir : Env := ⟨false, true, [], true, cb0⟩

/-- C5 counterexample: a run whose calibration succeeds but whose output
path cannot be opened terminates with exit code 0 yet writes no artifact,
contradicting the claim that every successful run writes the artifact. -/
theorem exit_semantics_counterexample :
    ((mainRun prims0 envNoWrite).results.map CalibrationResults.success) = some true ∧
    (mainRun prims0 envNoWrite).exitCode = 0 ∧
    (mainRun prims0 envNoWrite).artifactWritten = false := by
  decide

/-- C5 (amended): with an existing image directory, a run whose
calibration fails (no images, no detections, or solver failure) exits
non-zero and writes no artifact; a run whose calibration succeeds exits
zero, and writes the artifact exactly when the output path is openable. -/
theorem exit_semantics (prims : CVPrims) (env : Env) (hdir : env.dirExists = true) :
    ((calibrateCameraRun prims env.images env.cb).results.success = false →
      (mainRun prims env).exitCode ≠ 0 ∧
      (mainRun prims env).artifactWritten = false) ∧
    ((calibrateCameraRun prims env.images env.cb).results.success = true →
      (mainRun prims env).exitCode = 0 ∧
      (env.outputOpenable = true → (mainRun prims env).artifactWritten = true) ∧
      (env.outputOpenable = false → (mainRun prims env).artifactWritten = false)) := by
  constructor
  · intro hf
    simp [mainRun, hdir, hf]
  · intro hs
    refine ⟨?_, ?_, ?_⟩
    · simp [mainRun, hdir, hs]
    · intro ho
      simp [mainRun, hdir, hs, ho, saveCalibrationResultsToJSON]
    · intro ho
      simp [mainRun, hdir, hs, ho, saveCalibrationResultsToJSON]

/-- Witness: the amended C5 on a concrete successful writable run and on
a concrete failing run. -/
theorem exit_semantics_witness :
    ((mainRun prims0 envOk).exitCode = 0 ∧
      (mainRun prims0 envOk).artifactWritten = true) ∧
    ((mainRun prims0 envFail).exitCode ≠ 0 ∧
      (mainRun prims0 envFail).artifactWritten = false) :=
  ⟨⟨((exit_semantics prims0 envOk rfl).2 (by decide)).1,
    ((exit_semantics prims0 envOk rfl).2 (by decide)).2.1 rfl⟩,
    (exit_semantics prims0 envFail rfl).1 (by decide)⟩

/-- C6 counterexample: when the missing image directory cannot be
created, the process exits with code 1 and the directory is not created,
contradicting the claim that every missing-directory run terminates with
exit code zero after creating the directory. -/
theorem dir_created_counterexample :
    envNoDir.dirExists = false ∧
    (mainRun prims0 envNoDir).exitCode = 1 ∧
    (mainRun prims0 envNoDir).dirCreated = false := by
  decide

/-- C6 (amended): when the image directory does not exist and creating it
succeeds, the directory is created, the message is printed, no
calibration is attempted, no artifact is written, and the process exits
zero. -/
theorem dir_created_run (prims : CVPrims) (env : Env)
    (hdir : env.dirExists = false) (hmk : env.dirCreatable = true) :
    (mainRun prims env).dirCreated = true ∧
    (mainRun prims env).createdMsgPrinted = true ∧
    (mainRun prims env).calibrationAttempted = false ∧
    (mainRun prims env).artifactWritten = false ∧
    (mainRun prims env).results = none ∧
    (mainRun prims env).exitCode = 0 := by
  simp [mainRun, hdir, hmk]

/-- Witness: the amended C6 at a concrete creatable-directory run. -/
theorem dir_created_run_witness :
    (mainRun prims0 envMkDir).dirCreated = true ∧
    (mainRun prims0 envMkDir).calibrationAttempted = false ∧
    (mainRun prims0 envMkDir).exitCode = 0 :=
  ⟨(dir_created_run prims0 envMkDir rfl rfl).1,
    (dir_created_run prims0 envMkDir rfl rfl).2.2.1,
    (dir_created_run prims0 envMkDir rfl rfl).2.2.2.2.2⟩

/-- C9: when calibration succeeds and the output path cannot be opened,
the write error is logged, the artifact is not written, the stored result
is exactly the (unchanged) calibration result with its success flag still
true, and the process exits zero. -/
theorem write_failure_preserves_success (prims : CVPrims) (env : Env)
    (hdir : env.dirExists = true) (hopen : env.outputOpenable = false)
    (hsucc : (calibrateCameraRun prims env.images env.cb).results.success = true) :
    (mainRun prims env).writeErrorLogged = true ∧
    (mainRun prims env).artifactWritten = false ∧
    (mainRun prims env).results =
      some (calibrateCameraRun prims env.images env.cb).results ∧
    ((mainRun prims env).results.map CalibrationResults.success) = some true ∧
    (mainRun prims env).exitCode = 0 := by
  simp [mainRun, hdir, hopen, hsucc, saveCalibrationResultsToJSON]

/-- Witness: C9 at the concrete successful run whose output file cannot
be opened. -/
theorem write_failure_preserves_success_witness :
    (mainRun prims0 envNoWrite).writeErrorLogged = true ∧
    (mainRun prims0 envNoWrite).exitCode = 0 :=
  ⟨(write_failure_preserves_success prims0 envNoWrite rfl rfl (by decide)).1,
    (write_failure_preserves_success prims0 envNoWrite rfl rfl (by decide)).2.2.2.2⟩

end CameraCalib
